import Mathlib

/-!
Shallow embedding of the two scripts of `callseb/callseb2.github.io`:
`src/script.js` (landing-page starfield) and `src/planetScript.js`
(solar-system view).  Numeric state is modelled over `ℝ`; the discrete
resources created by the bootstrapper (scene entities, event handlers)
are modelled as explicit lists so that initialisation can be compared
across calls.
-/

namespace SolarSite

/-! ## Planet configuration table (planetScript.js, lines 97-138) -/

/-- One entry of the `planetsData` array: name, distance from the sun,
render size, orbital speed in radians per tick, colour and the panel
text shown on selection. -/
structure PlanetData where
  name : String
  orbitalRadius : ℚ
  size : ℚ
  speed : ℚ
  color : ℕ
  content : String
deriving DecidableEq

/-- The static `planetsData` table, verbatim from the source. -/
def planetsData : List PlanetData :=
  [ { name := "Earth", orbitalRadius := 150, size := 15, speed := 1/100,
      color := 0x4cafef,
      content := "This could be your ABOUT section. Tell visitors who you are or describe your craft here." },
    { name := "Mars", orbitalRadius := 220, size := 12, speed := 8/1000,
      color := 0xeb5b35,
      content := "Share some of your stories here. Perhaps tales of your adventures or short stories you’ve written." },
    { name := "Venus", orbitalRadius := 270, size := 10, speed := 6/1000,
      color := 0xf4b400,
      content := "Display your poems or creative writing pieces on this planet." },
    { name := "Jupiter", orbitalRadius := 330, size := 25, speed := 4/1000,
      color := 0xd59f54,
      content := "Use this space for a portfolio of photographs or graphic design works. You can embed images in the panel." },
    { name := "Saturn", orbitalRadius := 400, size := 20, speed := 3/1000,
      color := 0x98d263,
      content := "A miscellaneous section—perhaps news, blog posts or anything else you want to share." } ]

/-! ## Per-planet animation state (planetScript.js, lines 148-154 and 225-231) -/

/-- The mutable state attached to one planet mesh: its `userData`
fields (`orbitalRadius`, `speed`, `angle`) together with the mesh
position and the cosmetic self-rotation `rotation.y`. -/
structure PlanetState where
  orbitalRadius : ℝ
  speed : ℝ
  angle : ℝ
  posX : ℝ
  posY : ℝ
  posZ : ℝ
  rotY : ℝ

/-- One animation-loop update of a single planet (planetScript.js,
lines 226-230): `angle += speed`, then
`position.set(cos(angle)*r, 0, sin(angle)*r)` and `rotation.y += 0.01`. -/
noncomputable def updatePlanet (p : PlanetState) : PlanetState :=
  let a := p.angle + p.speed
  { p with
    angle := a
    posX := Real.cos a * p.orbitalRadius
    posY := 0
    posZ := Real.sin a * p.orbitalRadius
    rotY := p.rotY + 0.01 }

/-! ## Scene entities and handlers built by `initSolarSystem`
(planetScript.js, lines 57-162 for `scene.add` calls, lines 184-220
for `addEventListener` calls) -/

/-- The objects added to the solar scene, in `scene.add` order:
ambient light (line 58), point light (61), star field (80), sun (88),
then one planet mesh (155) and one orbit ring (162) per table entry. -/
inductive Entity where
  | ambientLight
  | pointLightEntity
  | starFieldEntity
  | sunEntity
  | planetEntity (name : String)
  | ringEntity (orbitalRadius : ℚ)
deriving DecidableEq

/-- The event handlers registered by `initSolarSystem`, in
`addEventListener` order: canvas `click` (line 184), close-button
`click` (187), window `wheel` (202), window `resize` (210) and window
`mousemove` (220). -/
inductive Handler where
  | canvasClick
  | closeClick
  | windowWheel
  | windowResize
  | windowMousemove
deriving DecidableEq

/-- Discrete view of the solar page: whether the `solar-scene` canvas
exists, the `dataset.initialised` flag stored on it, the entities added
to the scene, the registered handlers, and whether the animation loop
has been started. -/
structure SolarDom where
  canvasPresent : Bool
  initialised : Bool
  entities : List Entity
  handlers : List Handler
  animating : Bool
deriving DecidableEq

/-- The entities a successful initialisation adds, in source order. -/
def builtEntities : List Entity :=
  [.ambientLight, .pointLightEntity, .starFieldEntity, .sunEntity] ++
    planetsData.flatMap (fun d => [.planetEntity d.name, .ringEntity d.orbitalRadius])

/-- The handlers a successful initialisation registers, in source order. -/
def builtHandlers : List Handler :=
  [.canvasClick, .closeClick, .windowWheel, .windowResize, .windowMousemove]

/-- `window.initSolarSystem` (planetScript.js, lines 18-238) at the
resource level: if the canvas is absent or already carries the
`dataset.initialised` flag, return with the page untouched (lines
22-25); otherwise set the flag, build the scene, register the handlers
and start the animation loop. -/
def initSolarSystem (dom : SolarDom) : SolarDom :=
  if !dom.canvasPresent || dom.initialised then dom
  else
    { canvasPresent := true
      initialised := true
      entities := builtEntities
      handlers := builtHandlers
      animating := true }

/-! ## Solar-view continuous state and its handlers
(planetScript.js, lines 196-236) -/

/-- Continuous state of the solar view: the camera position, the
per-planet states, the normalised mouse scalars feeding the parallax
smoothing, and the scene contents. -/
structure SolarState where
  planets : List PlanetState
  cameraX : ℝ
  cameraY : ℝ
  cameraZ : ℝ
  mouseX : ℝ
  mouseY : ℝ
  entities : List Entity

/-- `minZoom` on the solar view (planetScript.js, line 196). -/
def solarMinZoom : ℝ := 300

/-- `maxZoom` on the solar view (planetScript.js, line 197). -/
def solarMaxZoom : ℝ := 1500

/-- The solar view `onWheel` handler (planetScript.js, lines 198-201):
`camera.position.z += deltaY * 0.5` followed by
`camera.position.z = max(minZoom, min(maxZoom, camera.position.z))`. -/
noncomputable def solarOnWheel (deltaY : ℝ) (st : SolarState) : SolarState :=
  let z := st.cameraZ + deltaY * 0.5
  { st with cameraZ := max solarMinZoom (min solarMaxZoom z) }

/-- The solar view `onMouseMove` handler (planetScript.js, lines
216-219): normalise the pointer position to `[-0.5, 0.5]`. -/
noncomputable def solarOnMouseMove (clientX clientY innerW innerH : ℝ)
    (st : SolarState) : SolarState :=
  { st with mouseX := clientX / innerW - 0.5
            mouseY := clientY / innerH - 0.5 }

/-- One tick of the solar `animate` loop (planetScript.js, lines
223-236): update every planet, then ease the camera toward the
parallax target with factor `0.02`. -/
noncomputable def animateTick (st : SolarState) : SolarState :=
  { st with
    planets := st.planets.map updatePlanet
    cameraX := st.cameraX + (st.mouseX * 200 - st.cameraX) * 0.02
    cameraY := st.cameraY + (-st.mouseY * 100 - st.cameraY) * 0.02 }

/-- A sequence of wheel events processed by the solar view. -/
noncomputable def runWheelSolar (deltas : List ℝ) (st : SolarState) : SolarState :=
  deltas.foldl (fun s dy => solarOnWheel dy s) st

/-! ## Landing-page state and handlers (script.js) -/

/-- Continuous state of the landing page: camera position, the
normalised mouse scalars, the derived parallax targets, the star-field
rotation, and the registration status of the two removable listeners. -/
structure LandingState where
  cameraX : ℝ
  cameraY : ℝ
  cameraZ : ℝ
  mouseX : ℝ
  mouseY : ℝ
  targetX : ℝ
  targetY : ℝ
  starsRotX : ℝ
  starsRotY : ℝ
  mousemoveRegistered : Bool
  wheelRegistered : Bool

/-- `minZoom` on the landing page (script.js, line 71). -/
def landingMinZoom : ℝ := 500

/-- `maxZoom` on the landing page (script.js, line 72). -/
def landingMaxZoom : ℝ := 2000

/-- The landing `onWheel` handler (script.js, lines 84-87). -/
noncomputable def landingOnWheel (deltaY : ℝ) (st : LandingState) : LandingState :=
  let z := st.cameraZ + deltaY * 0.5
  { st with cameraZ := max landingMinZoom (min landingMaxZoom z) }

/-- The landing `onMouseMove` handler (script.js, lines 76-79). -/
noncomputable def landingOnMouseMove (clientX clientY innerW innerH : ℝ)
    (st : LandingState) : LandingState :=
  { st with mouseX := clientX / innerW - 0.5
            mouseY := clientY / innerH - 0.5 }

/-- A sequence of wheel events processed by the landing page. -/
noncomputable def runWheelLanding (deltas : List ℝ) (st : LandingState) : LandingState :=
  deltas.foldl (fun s dy => landingOnWheel dy s) st

/-- The pointer events the landing page listens to after load:
`mousemove` and `wheel` (script.js, lines 80 and 88). -/
inductive LandingEvent where
  | mousemove (clientX clientY innerW innerH : ℝ)
  | wheel (deltaY : ℝ)

/-- DOM dispatch of a landing event: a handler runs only while its
listener is registered (it is removed in the icon-click handler,
script.js lines 124-125). -/
noncomputable def dispatchLanding (st : LandingState) (e : LandingEvent) : LandingState :=
  match e with
  | .mousemove cx cy w h =>
      if st.mousemoveRegistered then landingOnMouseMove cx cy w h st else st
  | .wheel dy =>
      if st.wheelRegistered then landingOnWheel dy st else st

/-- The `iconContainer` click handler (script.js, lines 122-146), up to
the external GSAP tween: it synchronously removes the `mousemove` and
`wheel` listeners before the transition animation starts. -/
def iconContainerClick (st : LandingState) : LandingState :=
  { st with mousemoveRegistered := false, wheelRegistered := false }

/-! ## Starfield generation (planetScript.js lines 66-76; script.js
lines 43-57).  The three `Math.random()` draws per point are passed in
as sequences `u`, `v`, `w` of samples in `[0, 1)`. -/

/-- One star position: `r = R·u`, `θ = acos(2·v − 1)`, `φ = w·2π`,
converted to Cartesian coordinates exactly as in both sources. -/
noncomputable def starPoint (rMax u v w : ℝ) : ℝ × ℝ × ℝ :=
  let r := rMax * u
  let theta := Real.arccos (2 * v - 1)
  let phi := w * (2 * Real.pi)
  (r * Real.sin theta * Real.cos phi,
   r * Real.sin theta * Real.sin phi,
   r * Real.cos theta)

/-- The generated starfield: `starCount` points, the `i`-th using the
`i`-th random draws. -/
noncomputable def starField (starCount : ℕ) (rMax : ℝ) (u v w : ℕ → ℝ) :
    List (ℝ × ℝ × ℝ) :=
  (List.range starCount).map (fun i => starPoint rMax (u i) (v i) (w i))

/-- Euclidean distance of a generated point from the origin. -/
noncomputable def norm3 (p : ℝ × ℝ × ℝ) : ℝ :=
  Real.sqrt (p.1 ^ 2 + p.2.1 ^ 2 + p.2.2 ^ 2)

/-! ## Click picking and the info panel (planetScript.js, lines 165-192) -/

/-- Kinds of mesh present in the solar scene. -/
inductive MeshKind where
  | sunMesh
  | planetMeshKind
  | ringMesh
deriving DecidableEq

/-- A pickable mesh together with the `userData` the click handler
reads from it. -/
structure Mesh where
  kind : MeshKind
  name : String
  content : String
  orbitalRadius : ℚ
  speed : ℚ
deriving DecidableEq

/-- The planet mesh built for a table entry (planetScript.js, lines
145-154): `userData` carries the entry's name, content, radius and
speed. -/
def mkPlanetMesh (d : PlanetData) : Mesh :=
  { kind := .planetMeshKind
    name := d.name
    content := d.content
    orbitalRadius := d.orbitalRadius
    speed := d.speed }

/-- The `planets` array handed to the raycaster (planetScript.js,
line 156): only planet meshes are ever pushed into it — rings and the
sun are added to the scene but not to this list. -/
def planets : List Mesh := planetsData.map mkPlanetMesh

/-- One raycaster hit: its distance along the ray and the hit object.
`THREE.Raycaster.intersectObjects` returns these sorted by distance. -/
structure Intersection where
  dist : ℚ
  object : Mesh
deriving DecidableEq

/-- State of the `info-panel` element: title text, content text and
the two CSS classes toggled by the handler. -/
structure PanelState where
  title : String
  content : String
  hidden : Bool
  showing : Bool
deriving DecidableEq

/-- The tail of `onCanvasClick` (planetScript.js, lines 175-182): given
the intersection list for the cast ray, select `intersects[0]` if any
hit exists, copy its `userData.name`/`userData.content` into the panel
and reveal it; otherwise do nothing. -/
def onCanvasClick (intersects : List Intersection)
    (panel : PanelState) : PanelState :=
  match intersects with
  | [] => panel
  | selected :: _ =>
      { title := selected.object.name
        content := selected.object.content
        hidden := false
        showing := true }


/-! ## Helper lemmas -/

/-- Running `initSolarSystem` twice is the same as running it once:
either the guard fires (nothing changed, so it fires again), or the
first run set the `initialised` flag, making the second run a no-op. -/
lemma initSolarSystem_fix (d : SolarDom) :
    initSolarSystem (initSolarSystem d) = initSolarSystem d := by
  by_cases h : (!d.canvasPresent || d.initialised) = true
  · simp [initSolarSystem, h]
  · simp [initSolarSystem, h]

lemma initSolarSystem_iterate_succ (d : SolarDom) (n : ℕ) :
    initSolarSystem^[n + 1] d = initSolarSystem d := by
  induction n with
  | zero => simp
  | succ n ih =>
      rw [Function.iterate_succ_apply', ih, initSolarSystem_fix]

/-- Once both removable listeners are gone, dispatching any pointer
event is the identity on the landing state. -/
lemma dispatchLanding_deregistered (st : LandingState)
    (hm : st.mousemoveRegistered = false) (hw : st.wheelRegistered = false)
    (e : LandingEvent) : dispatchLanding st e = st := by
  cases e <;> simp [dispatchLanding, hm, hw]

lemma foldl_dispatchLanding_deregistered (evs : List LandingEvent)
    (st : LandingState) (hm : st.mousemoveRegistered = false)
    (hw : st.wheelRegistered = false) :
    evs.foldl dispatchLanding st = st := by
  induction evs with
  | nil => rfl
  | cons e evs ih =>
      rw [List.foldl_cons, dispatchLanding_deregistered st hm hw e]
      exact ih

/-! ## Claim theorems -/

/-- C2: calling the activation entry point `n + 1` times produces
exactly the same page state — entities, handlers, flags — as calling
it once, and on a surface whose flag is already set the call returns
the page unchanged. -/
theorem initSolarSystem_idempotent (dom : SolarDom) (n : ℕ) :
    initSolarSystem^[n + 1] dom = initSolarSystem dom ∧
    initSolarSystem { dom with initialised := true } =
      { dom with initialised := true } := by
  refine ⟨initSolarSystem_iterate_succ dom n, ?_⟩
  simp [initSolarSystem]

/-- C8: when the `solar-scene` canvas is absent, `initSolarSystem`
returns with the page untouched — no entities created, no handlers
registered, the animation loop not started. -/
theorem initSolarSystem_missing_canvas_noop (dom : SolarDom)
    (h : dom.canvasPresent = false) : initSolarSystem dom = dom := by
  simp [initSolarSystem, h]

theorem initSolarSystem_missing_canvas_noop_witness :
    (⟨false, false, [], [], false⟩ : SolarDom).canvasPresent = false ∧
    initSolarSystem ⟨false, false, [], [], false⟩ =
      (⟨false, false, [], [], false⟩ : SolarDom) :=
  ⟨rfl, initSolarSystem_missing_canvas_noop ⟨false, false, [], [], false⟩ rfl⟩

/-- C9: on both screens the wheel handler changes only the camera's
z-coordinate: camera x and y, the planet states, the scene contents
and the parallax scalars are untouched. -/
theorem onWheel_mutates_only_cameraZ (dy : ℝ) (s : SolarState)
    (l : LandingState) :
    ((solarOnWheel dy s).cameraX = s.cameraX ∧
     (solarOnWheel dy s).cameraY = s.cameraY ∧
     (solarOnWheel dy s).planets = s.planets ∧
     (solarOnWheel dy s).mouseX = s.mouseX ∧
     (solarOnWheel dy s).mouseY = s.mouseY ∧
     (solarOnWheel dy s).entities = s.entities) ∧
    ((landingOnWheel dy l).cameraX = l.cameraX ∧
     (landingOnWheel dy l).cameraY = l.cameraY ∧
     (landingOnWheel dy l).mouseX = l.mouseX ∧
     (landingOnWheel dy l).mouseY = l.mouseY ∧
     (landingOnWheel dy l).targetX = l.targetX ∧
     (landingOnWheel dy l).targetY = l.targetY ∧
     (landingOnWheel dy l).starsRotX = l.starsRotX ∧
     (landingOnWheel dy l).starsRotY = l.starsRotY) :=
  ⟨⟨rfl, rfl, rfl, rfl, rfl, rfl⟩, ⟨rfl, rfl, rfl, rfl, rfl, rfl, rfl, rfl⟩⟩

/-- C10: clicking the start icon removes the `mousemove` and `wheel`
listeners, and afterwards any sequence of pointer-move or wheel events
leaves the whole landing state — parallax scalars, camera zoom —
unchanged. -/
theorem iconClick_stops_pointer_input (st : LandingState)
    (evs : List LandingEvent) :
    (iconContainerClick st).mousemoveRegistered = false ∧
    (iconContainerClick st).wheelRegistered = false ∧
    evs.foldl dispatchLanding (iconContainerClick st) =
      iconContainerClick st :=
  ⟨rfl, rfl, foldl_dispatchLanding_deregistered evs _ rfl rfl⟩

/-- The solar camera's initial position, `(0, 200, 800)`
(planetScript.js, line 48); the planet list and scene contents play no
part in the wheel scenario. -/
def solarStart : SolarState :=
  { planets := [], cameraX := 0, cameraY := 200, cameraZ := 800,
    mouseX := 0, mouseY := 0, entities := [] }

/-- C5: from camera distance 800, a wheel event with `deltaY = 1000`
yields distance exactly 1300, and a further identical event clamps to
the solar maximum 1500. -/
theorem wheel_scenario_clamps_to_1300_then_1500 :
    (solarOnWheel 1000 solarStart).cameraZ = 1300 ∧
    (solarOnWheel 1000 (solarOnWheel 1000 solarStart)).cameraZ = 1500 := by
  constructor
  · simp only [solarOnWheel, solarStart, solarMinZoom, solarMaxZoom]
    norm_num [max_def, min_def]
  · simp only [solarOnWheel, solarStart, solarMinZoom, solarMaxZoom]
    norm_num [max_def, min_def]

/-- The landing camera's initial state: `camera.position.z = 1000`
(script.js, line 33), parallax scalars zeroed (lines 64-67), both
removable listeners attached (lines 80 and 88). -/
def landingStart : LandingState :=
  { cameraX := 0, cameraY := 0, cameraZ := 1000, mouseX := 0, mouseY := 0,
    targetX := 0, targetY := 0, starsRotX := 0, starsRotY := 0,
    mousemoveRegistered := true, wheelRegistered := true }

/-- One solar wheel event always lands the camera inside the clamp range. -/
lemma solarOnWheel_cameraZ_mem (dy : ℝ) (s : SolarState) :
    solarMinZoom ≤ (solarOnWheel dy s).cameraZ ∧
    (solarOnWheel dy s).cameraZ ≤ solarMaxZoom := by
  refine ⟨le_max_left _ _, max_le ?_ (min_le_left _ _)⟩
  norm_num [solarMinZoom, solarMaxZoom]

/-- One landing wheel event always lands the camera inside the clamp range. -/
lemma landingOnWheel_cameraZ_mem (dy : ℝ) (l : LandingState) :
    landingMinZoom ≤ (landingOnWheel dy l).cameraZ ∧
    (landingOnWheel dy l).cameraZ ≤ landingMaxZoom := by
  refine ⟨le_max_left _ _, max_le ?_ (min_le_left _ _)⟩
  norm_num [landingMinZoom, landingMaxZoom]

lemma runWheelSolar_cameraZ_mem (deltas : List ℝ) (s : SolarState)
    (h1 : solarMinZoom ≤ s.cameraZ) (h2 : s.cameraZ ≤ solarMaxZoom) :
    solarMinZoom ≤ (runWheelSolar deltas s).cameraZ ∧
    (runWheelSolar deltas s).cameraZ ≤ solarMaxZoom := by
  induction deltas generalizing s with
  | nil => exact ⟨h1, h2⟩
  | cons d deltas ih =>
      have h := solarOnWheel_cameraZ_mem d s
      exact ih (solarOnWheel d s) h.1 h.2

lemma runWheelLanding_cameraZ_mem (deltas : List ℝ) (l : LandingState)
    (h1 : landingMinZoom ≤ l.cameraZ) (h2 : l.cameraZ ≤ landingMaxZoom) :
    landingMinZoom ≤ (runWheelLanding deltas l).cameraZ ∧
    (runWheelLanding deltas l).cameraZ ≤ landingMaxZoom := by
  induction deltas generalizing l with
  | nil => exact ⟨h1, h2⟩
  | cons d deltas ih =>
      have h := landingOnWheel_cameraZ_mem d l
      exact ih (landingOnWheel d l) h.1 h.2

/-- C3: for any finite sequence of wheel deltas, if the camera starts
inside the clamp range of its screen, it stays inside: `[300, 1500]`
on the solar view, `[500, 2000]` on the landing page. -/
theorem zoom_distance_always_clamped (deltas : List ℝ) (s : SolarState)
    (l : LandingState) :
    (solarMinZoom ≤ s.cameraZ → s.cameraZ ≤ solarMaxZoom →
      solarMinZoom ≤ (runWheelSolar deltas s).cameraZ ∧
      (runWheelSolar deltas s).cameraZ ≤ solarMaxZoom) ∧
    (landingMinZoom ≤ l.cameraZ → l.cameraZ ≤ landingMaxZoom →
      landingMinZoom ≤ (runWheelLanding deltas l).cameraZ ∧
      (runWheelLanding deltas l).cameraZ ≤ landingMaxZoom) :=
  ⟨fun h1 h2 => runWheelSolar_cameraZ_mem deltas s h1 h2,
   fun h1 h2 => runWheelLanding_cameraZ_mem deltas l h1 h2⟩

theorem zoom_distance_always_clamped_witness :
    (solarMinZoom ≤ (runWheelSolar [1000, -100000] solarStart).cameraZ ∧
     (runWheelSolar [1000, -100000] solarStart).cameraZ ≤ solarMaxZoom) ∧
    (landingMinZoom ≤ (runWheelLanding [1000, -100000] landingStart).cameraZ ∧
     (runWheelLanding [1000, -100000] landingStart).cameraZ ≤ landingMaxZoom) :=
  ⟨(zoom_distance_always_clamped [1000, -100000] solarStart landingStart).1
      (by norm_num [solarStart, solarMinZoom])
      (by norm_num [solarStart, solarMaxZoom]),
   (zoom_distance_always_clamped [1000, -100000] solarStart landingStart).2
      (by norm_num [landingStart, landingMinZoom])
      (by norm_num [landingStart, landingMaxZoom])⟩

/-! ## The orbital position invariant -/

/-- The §3 invariant: the stored position is the pure image of the
current phase, `(cos(angle)·r, 0, sin(angle)·r)`. -/
def positionInvariant (p : PlanetState) : Prop :=
  p.posX = Real.cos p.angle * p.orbitalRadius ∧
  p.posY = 0 ∧
  p.posZ = Real.sin p.angle * p.orbitalRadius

/-- The animation step establishes the invariant unconditionally. -/
lemma positionInvariant_updatePlanet (p : PlanetState) :
    positionInvariant (updatePlanet p) := ⟨rfl, rfl, rfl⟩

lemma animateTick_planets (st : SolarState) :
    (animateTick st).planets = st.planets.map updatePlanet := rfl

lemma animateTick_iterate_planets (st : SolarState) (n : ℕ) :
    (animateTick^[n] st).planets = st.planets.map updatePlanet^[n] := by
  induction n with
  | zero => simp
  | succ n ih =>
      rw [Function.iterate_succ_apply', animateTick_planets, ih,
        List.map_map, Function.iterate_succ']

/-- C1: after every tick of the animation loop, every planet's stored
position equals `(cos(angle)·orbitalRadius, 0, sin(angle)·orbitalRadius)`
for its current phase — the y-coordinate is 0 and position is never
accumulated independently of the angle. -/
theorem position_is_pure_function_of_angle (st : SolarState) (n : ℕ) :
    ∀ p ∈ (animateTick^[n + 1] st).planets, positionInvariant p := by
  intro p hp
  rw [animateTick_iterate_planets] at hp
  obtain ⟨q, _, rfl⟩ := List.mem_map.1 hp
  rw [Function.iterate_succ_apply']
  exact positionInvariant_updatePlanet _

/-- The §8 scenario body: radius 150, speed 0.01, phase 0, before its
first tick. -/
noncomputable def scenarioBody : PlanetState :=
  { orbitalRadius := 150, speed := 0.01, angle := 0,
    posX := 0, posY := 0, posZ := 0, rotY := 0 }

/-- A solar state holding only the scenario body. -/
noncomputable def scenarioState : SolarState :=
  { planets := [scenarioBody], cameraX := 0, cameraY := 200,
    cameraZ := 800, mouseX := 0, mouseY := 0, entities := [] }

theorem position_is_pure_function_of_angle_witness :
    positionInvariant (updatePlanet scenarioBody) :=
  position_is_pure_function_of_angle scenarioState 0 (updatePlanet scenarioBody)
    (by simp [animateTick, scenarioState])

/-- Iterating the planet update leaves radius and speed fixed and adds
`n · speed` to the phase. -/
lemma updatePlanet_iterate (p : PlanetState) (n : ℕ) :
    (updatePlanet^[n] p).angle = p.angle + n * p.speed ∧
    (updatePlanet^[n] p).speed = p.speed ∧
    (updatePlanet^[n] p).orbitalRadius = p.orbitalRadius := by
  induction n with
  | zero => simp
  | succ n ih =>
      obtain ⟨ha, hs, hr⟩ := ih
      rw [Function.iterate_succ_apply']
      refine ⟨?_, ?_, ?_⟩
      · show (updatePlanet _).angle = _
        simp only [updatePlanet]
        rw [ha, hs]
        push_cast
        ring
      · exact hs
      · exact hr

/-- C6: the scenario body after exactly 100 ticks has phase exactly 1
radian and position `(cos(1)·150, 0, sin(1)·150)`. -/
theorem scenario_body_after_100_ticks :
    (updatePlanet^[100] scenarioBody).angle = 1 ∧
    (updatePlanet^[100] scenarioBody).posX = Real.cos 1 * 150 ∧
    (updatePlanet^[100] scenarioBody).posY = 0 ∧
    (updatePlanet^[100] scenarioBody).posZ = Real.sin 1 * 150 := by
  have h := updatePlanet_iterate scenarioBody 100
  have hangle : (updatePlanet^[100] scenarioBody).angle = 1 := by
    rw [h.1]
    show (0 : ℝ) + (100 : ℕ) * (0.01 : ℝ) = 1
    norm_num
  have hr : (updatePlanet^[100] scenarioBody).orbitalRadius = 150 := h.2.2
  have hinv : positionInvariant (updatePlanet^[100] scenarioBody) := by
    rw [show (100 : ℕ) = 99 + 1 from rfl, Function.iterate_succ_apply']
    exact positionInvariant_updatePlanet _
  obtain ⟨hx, hy, hz⟩ := hinv
  refine ⟨hangle, ?_, hy, ?_⟩
  · rw [hx, hangle, hr]
  · rw [hz, hangle, hr]

/-! ## Starfield geometry -/

/-- The spherical-to-Cartesian conversion preserves the sampled
radius: a generated star sits at distance `|R·u|` from the origin. -/
lemma norm3_starPoint (rMax u v w : ℝ) :
    norm3 (starPoint rMax u v w) = |rMax * u| := by
  have h1 := Real.sin_sq_add_cos_sq (w * (2 * Real.pi))
  have h2 := Real.sin_sq_add_cos_sq (Real.arccos (2 * v - 1))
  have key :
      (rMax * u * Real.sin (Real.arccos (2 * v - 1)) *
          Real.cos (w * (2 * Real.pi))) ^ 2 +
        (rMax * u * Real.sin (Real.arccos (2 * v - 1)) *
          Real.sin (w * (2 * Real.pi))) ^ 2 +
        (rMax * u * Real.cos (Real.arccos (2 * v - 1))) ^ 2 =
      (rMax * u) ^ 2 := by
    linear_combination
      (rMax * u * Real.sin (Real.arccos (2 * v - 1))) ^ 2 * h1 +
        (rMax * u) ^ 2 * h2
  simp only [norm3, starPoint]
  rw [key, Real.sqrt_sq_eq_abs]

/-- C4: the starfield generator yields exactly `starCount` points, and
— because the radius is drawn as `R·uniform(0,1)` and the conversion
preserves it — every point's distance from the origin lies in `[0, R]`. -/
theorem starField_count_and_radius (starCount : ℕ) (rMax : ℝ)
    (u v w : ℕ → ℝ) (hr : 0 ≤ rMax) (hu : ∀ i, 0 ≤ u i ∧ u i < 1) :
    (starField starCount rMax u v w).length = starCount ∧
    ∀ p ∈ starField starCount rMax u v w,
      0 ≤ norm3 p ∧ norm3 p ≤ rMax := by
  refine ⟨by simp [starField], ?_⟩
  intro p hp
  obtain ⟨i, _, rfl⟩ := List.mem_map.1 hp
  rw [norm3_starPoint]
  have h0 : 0 ≤ rMax * u i := mul_nonneg hr (hu i).1
  rw [abs_of_nonneg h0]
  exact ⟨h0, mul_le_of_le_one_right hr (le_of_lt (hu i).2)⟩

theorem starField_count_and_radius_witness :
    (starField 2000 4000 (fun _ => 1/2) (fun _ => 1/2)
        (fun _ => 1/2)).length = 2000 ∧
    ∀ p ∈ starField 2000 4000 (fun _ => 1/2) (fun _ => 1/2) (fun _ => 1/2),
      0 ≤ norm3 p ∧ norm3 p ≤ 4000 :=
  starField_count_and_radius 2000 4000 _ _ _ (by norm_num)
    (fun _ => by norm_num)

/-! ## Click picking -/

/-- The panel before any selection: empty texts, `hidden` set,
`show` absent. -/
def panel0 : PanelState :=
  { title := "", content := "", hidden := true, showing := false }

/-- Mapping meshes to hits at one common distance yields a list that
is sorted by distance. -/
lemma sorted_map_const_dist (l : List Mesh) :
    (l.map (fun m => ({ dist := 1, object := m } : Intersection))).Sorted
      (fun a b => a.dist ≤ b.dist) := by
  induction l with
  | nil => simp
  | cons m l ih =>
      simp only [List.map_cons, List.sorted_cons]
      refine ⟨?_, ih⟩
      intro b hb
      obtain ⟨m', _, rfl⟩ := List.mem_map.1 hb
      exact le_refl _

/-- C7: for any raycast whose hits on the `planets` array are among
that array and sorted by distance — the contract of
`THREE.Raycaster.intersectObjects` — the pickable set holds planet
meshes only (never rings or the sun); an empty hit list leaves the
panel unchanged; a non-empty one selects the nearest hit, which is a
configured planet, and writes its name and content into the panel. -/
theorem click_selects_nearest_planet
    (raycast : List Mesh → List Intersection)
    (hmem : ∀ it ∈ raycast planets, it.object ∈ planets)
    (hsorted : (raycast planets).Sorted (fun a b => a.dist ≤ b.dist))
    (panel : PanelState) :
    (∀ m ∈ planets, m.kind = MeshKind.planetMeshKind) ∧
    (raycast planets = [] → onCanvasClick (raycast planets) panel = panel) ∧
    (∀ sel rest, raycast planets = sel :: rest →
      (∃ d ∈ planetsData, sel.object = mkPlanetMesh d) ∧
      (∀ it ∈ raycast planets, sel.dist ≤ it.dist) ∧
      onCanvasClick (raycast planets) panel =
        { title := sel.object.name, content := sel.object.content,
          hidden := false, showing := true }) := by
  refine ⟨?_, ?_, ?_⟩
  · intro m hm
    obtain ⟨d, _, rfl⟩ := List.mem_map.1 hm
    rfl
  · intro h
    rw [h]
    rfl
  · intro sel rest h
    have hsel : sel.object ∈ planets :=
      hmem sel (h ▸ List.mem_cons_self sel rest)
    refine ⟨?_, ?_, ?_⟩
    · obtain ⟨d, hd, hfd⟩ := List.mem_map.1 hsel
      exact ⟨d, hd, hfd.symm⟩
    · intro it hit
      rw [h] at hit
      rw [h] at hsorted
      rcases List.mem_cons.1 hit with rfl | hit'
      · exact le_refl _
      · exact (List.sorted_cons.1 hsorted).1 it hit'
    · rw [h]
      rfl

theorem click_selects_nearest_planet_witness :
    (∀ m ∈ planets, m.kind = MeshKind.planetMeshKind) ∧
    ((planets.map (fun m => ({ dist := 1, object := m } : Intersection))) = [] →
      onCanvasClick
        (planets.map (fun m => ({ dist := 1, object := m } : Intersection)))
        panel0 = panel0) ∧
    (∀ sel rest,
      (planets.map (fun m => ({ dist := 1, object := m } : Intersection))) =
        sel :: rest →
      (∃ d ∈ planetsData, sel.object = mkPlanetMesh d) ∧
      (∀ it ∈ planets.map
          (fun m => ({ dist := 1, object := m } : Intersection)),
        sel.dist ≤ it.dist) ∧
      onCanvasClick
        (planets.map (fun m => ({ dist := 1, object := m } : Intersection)))
        panel0 =
        { title := sel.object.name, content := sel.object.content,
          hidden := false, showing := true }) :=
  click_selects_nearest_planet
    (fun l => l.map (fun m => ({ dist := 1, object := m } : Intersection)))
    (by
      intro it hit
      obtain ⟨m, hm, rfl⟩ := List.mem_map.1 hit
      exact hm)
    (sorted_map_const_dist planets) panel0

end SolarSite
